import Mathlib

/-!
Verification model of the spotify-tracker repository (`src/main.py`, with
`src/spotifty/main.py` a near-duplicate copy of the same engine).  The
definitions below are a shallow embedding of the session-tracking engine:
the credential lifecycle (`exchange_code_for_token`, `refresh_access_token`),
the polling cycle (`background_track_polling`), the session store
(`track_history` table under SQL semantics), and the read-side endpoints
(`dashboard` total-minutes aggregation and `/current-track`).
Time instants handed to the store are abstract naturals (the code passes
`datetime.now()` values around opaquely); epoch timestamps used by the token
logic are integers (the code compares `datetime.now().timestamp()` floats).
-/

namespace SpotifyTracker

/-- Python truthiness of an optional string: `None` and `""` are falsy. -/
def strTruthy : Option String → Bool
  | none => false
  | some s => s ≠ ""

/-- Python truthiness of an optional numeric timestamp: `None` and `0` are falsy. -/
def numTruthy : Option Int → Bool
  | none => false
  | some e => e ≠ 0

/-- SQL equality of the `track_id` column against a bound parameter: a `NULL`
on either side never matches (`track_id = NULL` is not true in SQL). -/
def sqlEq : Option String → Option String → Bool
  | some a, some b => a == b
  | _, _ => false

/-- One row of the `track_history` table (`init_db` in src/main.py).
`id` is the AUTOINCREMENT primary key; `end_time = none` means the column is
NULL, i.e. the session is still open. -/
structure Row where
  id : Nat
  track_id : Option String
  track_name : String
  artists : String
  album_name : Option String
  album_image : Option String
  start_time : Option Nat
  end_time : Option Nat
deriving Repr, DecidableEq

/-- The in-memory tracker state: the module-level globals `current_track_id`,
`current_start_time`, `current_track_duration` of src/main.py. -/
structure TrackerState where
  current_track_id : Option String
  current_start_time : Option Nat
  current_track_duration : Nat
deriving Repr, DecidableEq

/-- Process start: `current_track_id = None`, `current_start_time = None`,
`current_track_duration = 180`. -/
def initState : TrackerState := ⟨none, none, 180⟩

/-- The `item` object of a 200 currently-playing payload, as the code reads it:
every field is fetched with `.get` and may be absent.  `artists` is the list of
each artist object's optional `name`; `album_images` the list of each image
object's optional `url`. -/
structure Item where
  id : Option String
  name : Option String
  artists : List (Option String)
  album_name : Option String
  album_images : List (Option String)
  duration_ms : Option Nat
deriving Repr, DecidableEq

/-- A normalized poll result, at the granularity the loop branches on:
HTTP 204, a non-200/204 status (or transport error), or a parsed 200 body
carrying `item` (absent/empty dict modelled as `none`) and `is_playing`. -/
inductive Snapshot where
  | noContent : Snapshot
  | httpError (code : Nat) : Snapshot
  | payload (item : Option Item) (is_playing : Bool) : Snapshot
deriving Repr, DecidableEq

/-- `", ".join([a.get("name", "") for a in item.get("artists", [])])`. -/
def joinArtists (as : List (Option String)) : String :=
  String.intercalate ", " (as.map (fun a => a.getD ""))

/-- `album_images[0].get("url") if album_images else None`. -/
def headImage : List (Option String) → Option String
  | [] => none
  | u :: _ => u

/-- A store write emitted by one poll cycle: the conditional close
`UPDATE track_history SET end_time = ? WHERE track_id = ? AND end_time IS NULL`
or the insert of a freshly opened session row. -/
inductive StoreOp where
  | close (target : Option String) (now : Nat) : StoreOp
  | insert (track_id : Option String) (track_name artists : String)
      (album_name album_image : Option String) (start : Nat) : StoreOp
deriving Repr, DecidableEq

/-- Apply the conditional close: set `end_time` on every row whose `track_id`
matches the bound parameter under SQL semantics and whose `end_time` is NULL. -/
def sqlCloseOpen (store : List Row) (target : Option String) (now : Nat) : List Row :=
  store.map (fun r =>
    if sqlEq r.track_id target ∧ r.end_time = none then { r with end_time := some now } else r)

/-- Apply one store operation; an insert receives the next AUTOINCREMENT id. -/
def applyOp (store : List Row) : StoreOp → List Row
  | .close target now => sqlCloseOpen store target now
  | .insert tid tname arts aname aimg start =>
      store ++ [⟨store.length, tid, tname, arts, aname, aimg, some start, none⟩]

def applyOps (store : List Row) (ops : List StoreOp) : List Row :=
  ops.foldl applyOp store

/-- `int(duration_ms / 1000)` guarded by Python truthiness of `duration_ms`
(absent or zero leaves the cached duration untouched). -/
def updateDuration (st : TrackerState) (duration_ms : Option Nat) : Nat :=
  match duration_ms with
  | some d => if d ≠ 0 then d / 1000 else st.current_track_duration
  | none => st.current_track_duration

/-- The non-playing branch shared by the 204 case and the
`not item or not is_playing` case of src/main.py: if a start time is recorded,
run the conditional close for the current track and clear the start time;
in either case reset the cached duration to the 180 s fallback.
`current_track_id` is left as it was. -/
def handleNonPlaying (st : TrackerState) (now : Nat) : TrackerState × List StoreOp :=
  if st.current_start_time.isSome then
    ({ st with current_start_time := none, current_track_duration := 180 },
      [.close st.current_track_id now])
  else
    ({ st with current_track_duration := 180 }, [])

/-- The playing branch of src/main.py (lines 216–270): cache the duration,
then on a track change close the previous track (only when
`current_track_id is not None`) and insert the new row, otherwise restore a
cleared start time. -/
def handlePlaying (st : TrackerState) (now : Nat) (it : Item) : TrackerState × List StoreOp :=
  let dur := updateDuration st it.duration_ms
  if it.id ≠ st.current_track_id then
    let closeOps : List StoreOp :=
      if st.current_track_id ≠ none then [.close st.current_track_id now] else []
    (⟨it.id, some now, dur⟩,
      closeOps ++ [.insert it.id (it.name.getD "Unknown") (joinArtists it.artists)
        it.album_name (headImage it.album_images) now])
  else if st.current_start_time = none then
    ({ st with current_start_time := some now, current_track_duration := dur }, [])
  else
    ({ st with current_track_duration := dur }, [])

/-- One snapshot through the tracker logic of `background_track_polling`:
the state update plus the list of store writes the cycle issues. -/
def snapshotStep (st : TrackerState) (now : Nat) : Snapshot → TrackerState × List StoreOp
  | .noContent => handleNonPlaying st now
  | .httpError _ => (st, [])
  | .payload item is_playing =>
      match item, is_playing with
      | some it, true => handlePlaying st now it
      | _, _ => handleNonPlaying st now

/-- One snapshot applied to state and store together (store writes succeed). -/
def processSnapshot (st : TrackerState) (store : List Row) (now : Nat) (snap : Snapshot) :
    TrackerState × List Row :=
  let (st', ops) := snapshotStep st now snap
  (st', applyOps store ops)

/-- A timed snapshot sequence fed through the tracker. -/
def runSnaps (st : TrackerState) (store : List Row) : List (Nat × Snapshot) → TrackerState × List Row
  | [] => (st, store)
  | (now, snap) :: rest =>
      let (st', store') := processSnapshot st store now snap
      runSnaps st' store' rest

/-! ## Credential lifecycle (Token Manager) -/

/-- The module-level credential globals of src/main.py: `access_token`,
`refresh_token`, `token_expires_at` (an epoch timestamp). -/
structure Credential where
  access_token : Option String
  refresh_token : Option String
  token_expires_at : Option Int
deriving Repr, DecidableEq

/-- The parsed JSON of a token-endpoint response, each field read via `.get`. -/
structure TokenBody where
  access_token : Option String
  refresh_token : Option String
  expires_in : Option Int
deriving Repr, DecidableEq

/-- An HTTP response from the token endpoint: a status code and, when the body
parses as JSON, the parsed fields (`body = none` models `r.json()` raising). -/
structure TokenResp where
  status : Nat
  body : Option TokenBody
deriving Repr, DecidableEq

/-- Outcome of `exchange_code_for_token`: a `False` return, a `True` return, or
an exception escaping the function (its body has no try/except). -/
inductive ExchangeResult where
  | failure : ExchangeResult
  | success : ExchangeResult
  | raised : ExchangeResult
deriving Repr, DecidableEq

/-- `exchange_code_for_token` (src/main.py lines 79–104): a non-200 status
returns `False` before touching any global; an unparseable body raises out of
the function before touching any global; a parseable 200 body overwrites all
three globals with whatever fields are present (`expires_in` defaulting to
3600) and returns `True`. -/
def exchange_code_for_token (cred : Credential) (resp : TokenResp) (now : Int) :
    ExchangeResult × Credential :=
  if resp.status ≠ 200 then (.failure, cred)
  else
    match resp.body with
    | none => (.raised, cred)
    | some b =>
        (.success,
          ⟨b.access_token, b.refresh_token, some (now + b.expires_in.getD 3600 - 60)⟩)

/-- `refresh_access_token` (src/main.py lines 106–132): without a truthy
refresh token it returns `False`; the request and JSON parse run inside a
try/except that returns `False` on any exception (`renv = none` models the
POST itself raising); a non-200 status returns `False`; otherwise
`access_token` and `token_expires_at` are overwritten (`refresh_token` is
never reassigned) and it returns `True`. -/
def refresh_access_token (cred : Credential) (renv : Option TokenResp) (now : Int) :
    Bool × Credential :=
  if ¬ strTruthy cred.refresh_token then (false, cred)
  else
    match renv with
    | none => (false, cred)
    | some resp =>
        if resp.status ≠ 200 then (false, cred)
        else
          match resp.body with
          | none => (false, cred)
          | some b =>
              (true,
                { cred with
                  access_token := b.access_token,
                  token_expires_at := some (now + b.expires_in.getD 3600 - 60) })

/-! ## The poll cycle -/

/-- The refresh trigger of the loop (src/main.py line 146):
`if token_expires_at and datetime.now().timestamp() > token_expires_at`. -/
def tokenStale (cred : Credential) (now : Int) : Bool :=
  numTruthy cred.token_expires_at ∧ now > cred.token_expires_at.getD 0

/-- The token-handling front of one poll cycle (src/main.py lines 144–158):
whether a refresh was attempted, the credential afterwards, and — when the
remaining `access_token` is truthy — the bearer token the currently-playing
GET is issued with (`fetchToken = none` means the cycle skips the fetch). -/
structure PollFront where
  refreshAttempted : Bool
  cred : Credential
  fetchToken : Option String
deriving Repr, DecidableEq

def pollFront (cred : Credential) (renv : Option TokenResp) (now : Int) : PollFront :=
  let attempted := tokenStale cred now
  let cred1 := if attempted then (refresh_access_token cred renv now).2 else cred
  if strTruthy cred1.access_token then ⟨attempted, cred1, cred1.access_token⟩
  else ⟨attempted, cred1, none⟩

/-- Exceptions the poll-cycle body can raise past its local handlers: a
transport error from `requests.get`, or `r.json()` failing on a 200 body.
Both are `Exception` subclasses, so the loop's `except Exception` catches
them. -/
inductive PyExn where
  | netError : PyExn
  | jsonError : PyExn
deriving Repr, DecidableEq

/-- Every exception the cycle body can raise is an `Exception` subclass,
caught by the outer `except Exception` handler of the loop. -/
def caughtByLoopHandler : PyExn → Bool := fun _ => true

/-- Failure injection for the store operations of one cycle; each SQLite
block in src/main.py sits in its own try/except, which logs and falls
through, so a failed write leaves the table untouched and execution
continues. -/
structure StoreFail where
  closeFails : Bool
  insertFails : Bool
deriving Repr, DecidableEq

/-- Apply the cycle's store writes with failure injection: a failing write is
swallowed by its local try/except and changes nothing. -/
def applyOpF (sf : StoreFail) (store : List Row) : StoreOp → List Row
  | .close target now => if sf.closeFails then store else sqlCloseOpen store target now
  | op@(.insert _ _ _ _ _ _) => if sf.insertFails then store else applyOp store op

def applyOpsF (sf : StoreFail) (store : List Row) (ops : List StoreOp) : List Row :=
  ops.foldl (applyOpF sf) store

/-- What one tick of the environment supplies to the cycle: the two clock
reads, the refresh endpoint's behaviour, the currently-playing endpoint's
behaviour (`none` = `requests.get` raises; a 200 with `body = none` =
`r.json()` raises), and store failure injection. -/
structure CycleEnv where
  now : Int
  nowT : Nat
  renv : Option TokenResp
  fetch : Option (Nat × Option (Option Item × Bool))
  sfail : StoreFail
deriving Repr

/-- The whole mutable state of the process as the loop sees it. -/
structure SysState where
  cred : Credential
  tracker : TrackerState
  store : List Row
deriving Repr, DecidableEq

/-- The body of one poll cycle, i.e. the contents of the loop's `try:` block
(src/main.py lines 144–270), without the outer handler: it returns the state
as left behind and the exception escaping the body, if any.  Local
try/excepts around the store writes are honoured via `applyOpsF`. -/
def cycleBody (s : SysState) (env : CycleEnv) : SysState × Option PyExn :=
  let front := pollFront s.cred env.renv env.now
  let s1 : SysState := { s with cred := front.cred }
  match front.fetchToken with
  | none => (s1, none)
  | some _ =>
      match env.fetch with
      | none => (s1, some .netError)
      | some (status, body) =>
          if status = 204 then
            let (st', ops) := handleNonPlaying s1.tracker env.nowT
            ({ s1 with tracker := st', store := applyOpsF env.sfail s1.store ops }, none)
          else if status ≠ 200 then (s1, none)
          else
            match body with
            | none => (s1, some .jsonError)
            | some (item, is_playing) =>
                let (st', ops) := snapshotStep s1.tracker env.nowT (.payload item is_playing)
                ({ s1 with tracker := st', store := applyOpsF env.sfail s1.store ops }, none)

/-- One poll cycle as the loop runs it: the body wrapped in
`except Exception`, which logs and keeps the state the body left behind. -/
def pollCycle (s : SysState) (env : CycleEnv) : SysState :=
  (cycleBody s env).1

/-- The polling loop over a scripted list of ticks, counting the cycles that
complete: a cycle whose escaping exception the outer handler does not catch
would terminate the loop and stop the count. -/
def runLoop (s : SysState) : List CycleEnv → SysState × Nat
  | [] => (s, 0)
  | env :: rest =>
      match cycleBody s env with
      | (s', none) =>
          let (sf, n) := runLoop s' rest
          (sf, n + 1)
      | (s', some e) =>
          if caughtByLoopHandler e then
            let (sf, n) := runLoop s' rest
            (sf, n + 1)
          else (s', 0)

/-! ## Dashboard aggregation

The dashboard reads `SELECT start_time, end_time FROM track_history` as raw
text (SQLite DATETIME columns come back as strings) and parses each with
`datetime.strptime(_, "%Y-%m-%d %H:%M:%S.%f")` inside a per-row try/except.
We model the stored cells as optional strings and `strptime` as a parameter
`parse : String → Option Int` yielding the instant in microseconds
(`none` = the library call raises).  `int((end - start).total_seconds())`
truncates towards zero, Python's `// 60` floors. -/

/-- One row of the dashboard's first query: the raw `start_time` and
`end_time` cells (NULL as `none`). -/
structure RawTimes where
  start_raw : Option String
  end_raw : Option String
deriving Repr, DecidableEq

/-- The contribution of one row to `total_seconds` in `dashboard`
(src/main.py lines 330–338): `none` when the row is skipped — a NULL or
unparseable `start_time` raises and is caught, a falsy or NULL `end_time`
leaves `end_time = None` so nothing is added, an unparseable `end_time`
raises and is caught. -/
def rowSeconds (parse : String → Option Int) (row : RawTimes) : Option Int :=
  match row.start_raw with
  | none => none
  | some s =>
      match parse s with
      | none => none
      | some sv =>
          match row.end_raw with
          | none => none
          | some e =>
              if e = "" then none
              else
                match parse e with
                | none => none
                | some ev => some ((ev - sv).tdiv 1000000)

/-- The `total_seconds` fold of `dashboard`, exactly as the code runs it:
start from 0 and, row by row, either skip (on exception or open session) or
add the truncated per-session seconds. -/
def dashboard_total_seconds (parse : String → Option Int) (rows : List RawTimes) : Int :=
  rows.foldl
    (fun acc row =>
      match rowSeconds parse row with
      | none => acc
      | some v => acc + v)
    0

/-- `total_minutes = total_seconds // 60` (Python floor division). -/
def dashboard_total_minutes (parse : String → Option Int) (rows : List RawTimes) : Int :=
  Int.fdiv (dashboard_total_seconds parse rows) 60

/-- Modelled from the spec: the specification's description of the aggregate —
the floor of (sum of per-closed-session elapsed seconds / 60), with
malformed/unparseable rows skipped.  Stated independently of the fold above
for the refinement comparison. -/
def specTotalMinutes (parse : String → Option Int) (rows : List RawTimes) : Int :=
  Int.fdiv ((rows.filterMap (rowSeconds parse)).sum) 60

/-! ## The /current-track endpoint -/

/-- The JSON responses `current_track` (src/main.py lines 386–420) can
produce, by shape: the 401 error object, the two bare-message 200 objects,
and the full track-info object. -/
inductive CTResp where
  | notAuth : CTResp
  | noTrack : CTResp
  | notFound : CTResp
  | info (track_name artists : String) (album_name album_image : Option String)
      (seconds_played : Nat) (duration : Nat) : CTResp
deriving Repr, DecidableEq

/-- HTTP status attached to each response shape. -/
def CTResp.status : CTResp → Nat
  | .notAuth => 401
  | _ => 200

/-- The `message` field of the response, when the shape carries one. -/
def CTResp.message : CTResp → Option String
  | .noTrack => some "No track currently playing"
  | .notFound => some "Track info not found"
  | _ => none

/-- `SELECT ... WHERE track_id=? ORDER BY start_time DESC LIMIT 1` plus
`fetchone()`: among the rows matching the bound `track_id` under SQL
equality, the one with the greatest `start_time` (NULL sorting lowest;
ties keep the earlier row). -/
def queryLatest (store : List Row) (tid : Option String) : Option Row :=
  (store.filter (fun r => sqlEq r.track_id tid)).foldl
    (fun acc r =>
      match acc with
      | none => some r
      | some b =>
          match b.start_time, r.start_time with
          | none, some _ => some r
          | some x, some y => if x < y then some r else some b
          | _, _ => some b)
    none

/-- The `/current-track` handler: 401 without a truthy access token; the
"no track" message when `current_track_id` or `current_start_time` is falsy;
the "not found" message when the store query returns no row; otherwise the
track-info object with `seconds_played = now − current_start_time` and the
cached duration. -/
def current_track (access : Option String) (st : TrackerState) (store : List Row)
    (now : Nat) : CTResp :=
  if ¬ strTruthy access then .notAuth
  else if ¬ (strTruthy st.current_track_id ∧ st.current_start_time.isSome) then .noTrack
  else
    match queryLatest store st.current_track_id with
    | none => .notFound
    | some r =>
        .info r.track_name r.artists r.album_name r.album_image
          (now - st.current_start_time.getD 0) st.current_track_duration

/-! ## Helper lemmas -/

/-- Number of open (end_time NULL) rows in the store. -/
def openCount (store : List Row) : Nat :=
  (store.filter (fun r => r.end_time = none)).length

/-- The inductive invariant maintained by the tracker: every open row belongs
to the in-memory current track and carries a present track id, and at most
one row is open in the whole table. -/
def TrackerInv (st : TrackerState) (store : List Row) : Prop :=
  (∀ r ∈ store, r.end_time = none → r.track_id = st.current_track_id ∧ r.track_id.isSome) ∧
  openCount store ≤ 1

/-- A snapshot is well formed when any playing item it carries has a present
track id (the spec's `Playing{track_id, ...}` always names a track). -/
def WFSnap (snap : Snapshot) : Prop :=
  ∀ it ip, snap = .payload (some it) ip → it.id.isSome

/-- A snapshot the tracker treats as non-playing: HTTP 204, a non-200/204
status, a 200 body with no item, or a 200 body with `is_playing` false. -/
def NonPlayingSnap (snap : Snapshot) : Prop :=
  snap = .noContent ∨ (∃ c, snap = .httpError c) ∨
    (∃ ip, snap = .payload none ip) ∨ (∃ it, snap = .payload it false)

/-- A non-playing snapshot that runs the closing branch (NoContent or a 200
body that is missing its item or has `is_playing` false) — a non-200/204
status is also non-playing but short-circuits without touching the store. -/
def ClosingSnap (snap : Snapshot) : Prop :=
  snap = .noContent ∨ (∃ ip, snap = .payload none ip) ∨ (∃ it, snap = .payload it false)

/-- A concrete playing item used by counterexamples: track "A". -/
def itemA : Item :=
  ⟨some "A", some "Song A", [some "Artist"], some "Album", [some "img"], some 200000⟩

theorem sqlCloseOpen_all_closed (store : List Row) (target : Option String) (now : Nat)
    (h : ∀ r ∈ store, r.end_time = none → sqlEq r.track_id target = true) :
    ∀ r ∈ sqlCloseOpen store target now, r.end_time ≠ none := by
  intro r hr
  simp only [sqlCloseOpen, List.mem_map] at hr
  obtain ⟨r0, hr0, rfl⟩ := hr
  by_cases he : r0.end_time = none
  · have := h r0 hr0 he
    simp [this, he]
  · simp [he]

theorem openCount_eq_zero_of_closed (store : List Row)
    (h : ∀ r ∈ store, r.end_time ≠ none) : openCount store = 0 := by
  simp only [openCount, List.length_eq_zero, List.filter_eq_nil_iff]
  intro r hr
  simpa using h r hr

theorem openCount_append_open (store : List Row) (r : Row) (h : r.end_time = none) :
    openCount (store ++ [r]) = openCount store + 1 := by
  simp [openCount, List.filter_append, h]

/-! ## Claim theorems -/

/-- Claim C9: when a successful token-exchange or token-refresh response
omits `expires_in`, the stored expiry is computed as if it were 3600 seconds,
i.e. `token_expires_at = now + 3600 − 60`. -/
theorem expires_in_defaults_to_3600 (cred : Credential) (resp renv : TokenResp)
    (b rb : TokenBody) (now : Int)
    (hs : resp.status = 200) (hb : resp.body = some b) (he : b.expires_in = none)
    (hrt : strTruthy cred.refresh_token = true) (hrs : renv.status = 200)
    (hrb : renv.body = some rb) (hre : rb.expires_in = none) :
    (exchange_code_for_token cred resp now).2.token_expires_at = some (now + 3600 - 60) ∧
    (refresh_access_token cred (some renv) now).2.token_expires_at = some (now + 3600 - 60) := by
  constructor
  · simp [exchange_code_for_token, hs, hb, he]
  · simp [refresh_access_token, hrt, hrs, hrb, hre]

/-- Witness for `expires_in_defaults_to_3600` at a concrete credential and a
pair of 200 responses whose bodies omit `expires_in`. -/
theorem expires_in_defaults_to_3600_witness :
    (exchange_code_for_token ⟨none, some "r", none⟩
        ⟨200, some ⟨some "a", some "r2", none⟩⟩ 100).2.token_expires_at = some 3640 ∧
    (refresh_access_token ⟨none, some "r", none⟩
        (some ⟨200, some ⟨some "a", some "r2", none⟩⟩) 100).2.token_expires_at = some 3640 := by
  have h := expires_in_defaults_to_3600 ⟨none, some "r", none⟩
    ⟨200, some ⟨some "a", some "r2", none⟩⟩ ⟨200, some ⟨some "a", some "r2", none⟩⟩
    ⟨some "a", some "r2", none⟩ ⟨some "a", some "r2", none⟩ 100
    rfl rfl rfl (by decide) rfl rfl rfl
  simpa using h

/-- Claim C5, counterexample: a 200 response whose JSON parses but carries
none of the token fields is a malformed upstream response, yet
`exchange_code_for_token` reports success and overwrites the previously
stored credential with absent values. -/
theorem exchange_malformed_200_overwrites_credential :
    (exchange_code_for_token ⟨some "old-at", some "old-rt", some 1000⟩
        ⟨200, some ⟨none, none, none⟩⟩ 5000).1 = ExchangeResult.success ∧
    (exchange_code_for_token ⟨some "old-at", some "old-rt", some 1000⟩
        ⟨200, some ⟨none, none, none⟩⟩ 5000).2 ≠ ⟨some "old-at", some "old-rt", some 1000⟩ := by
  decide

/-- Claim C5 as amended: on an HTTP failure (non-200 status) or an
unparseable response body, the exchange does not report success and leaves
the stored Credential exactly as it was; a 200 response with parseable JSON,
however, is treated as success even when token fields are missing and
overwrites the Credential. -/
theorem exchange_failure_leaves_credential (cred : Credential) (resp : TokenResp) (now : Int)
    (h : resp.status ≠ 200 ∨ resp.body = none) :
    (exchange_code_for_token cred resp now).1 ≠ ExchangeResult.success ∧
    (exchange_code_for_token cred resp now).2 = cred := by
  unfold exchange_code_for_token
  rcases h with h | h
  · simp [h]
  · by_cases hs : resp.status = 200 <;> simp [hs, h]

/-- Witness for `exchange_failure_leaves_credential` at a concrete 500
response. -/
theorem exchange_failure_leaves_credential_witness :
    (exchange_code_for_token ⟨some "at", some "rt", some 7⟩ ⟨500, none⟩ 42).1
        ≠ ExchangeResult.success ∧
    (exchange_code_for_token ⟨some "at", some "rt", some 7⟩ ⟨500, none⟩ 42).2
        = ⟨some "at", some "rt", some 7⟩ :=
  exchange_failure_leaves_credential ⟨some "at", some "rt", some 7⟩ ⟨500, none⟩ 42
    (Or.inl (by decide))

/-- Claim C2, counterexample: with an access token present, an expiry instant
already passed, and a refresh that fails (HTTP 500), the poll cycle still
issues the currently-playing request with the stale bearer token. -/
theorem fetch_issued_with_expired_token :
    (pollFront ⟨some "stale-tok", some "rt", some 10⟩ (some ⟨500, none⟩) 20).fetchToken
        = some "stale-tok" ∧
    (pollFront ⟨some "stale-tok", some "rt", some 10⟩ (some ⟨500, none⟩) 20).cred.token_expires_at
        = some 10 ∧
    (10 : Int) < 20 := by
  decide

/-- Claim C2 as amended: the now-playing fetch is attempted only when an
access token is present (truthy), and whenever the stored expiry has passed
a refresh is attempted before the fetch; after a failed refresh the fetch
may still be issued with the stale token. -/
theorem fetch_requires_token_and_refresh_attempt (cred : Credential)
    (renv : Option TokenResp) (now : Int) (t : String)
    (h : (pollFront cred renv now).fetchToken = some t) :
    (pollFront cred renv now).cred.access_token = some t ∧ t ≠ "" ∧
    (tokenStale cred now = true → (pollFront cred renv now).refreshAttempted = true) := by
  unfold pollFront at h ⊢
  set cred1 := if tokenStale cred now then (refresh_access_token cred renv now).2 else cred with hc
  by_cases ht : strTruthy cred1.access_token
  · simp only [ht, if_pos] at h ⊢
    refine ⟨h, ?_, fun hs => hs⟩
    cases ha : cred1.access_token with
    | none => rw [ha] at h; exact absurd h (by simp)
    | some s =>
        rw [ha] at h ht
        cases h
        simpa [strTruthy] using ht
  · simp [ht] at h

/-- Witness for `fetch_requires_token_and_refresh_attempt`: a fresh token is
fetched with, no refresh needed. -/
theorem fetch_requires_token_and_refresh_attempt_witness :
    (pollFront ⟨some "tok", none, some 100⟩ none 50).cred.access_token = some "tok" ∧
    "tok" ≠ "" ∧
    (tokenStale ⟨some "tok", none, some 100⟩ 50 = true →
      (pollFront ⟨some "tok", none, some 100⟩ none 50).refreshAttempted = true) :=
  fetch_requires_token_and_refresh_attempt ⟨some "tok", none, some 100⟩ none 50 "tok"
    (by decide)

/-- Claim C6: a non-playing snapshot processed while no open start time is
recorded issues zero store writes and leaves the Session Store unchanged. -/
theorem nonplaying_while_idle_no_writes (st : TrackerState) (store : List Row)
    (now : Nat) (snap : Snapshot)
    (hidle : st.current_start_time = none) (hnp : NonPlayingSnap snap) :
    (snapshotStep st now snap).2 = [] ∧
    (processSnapshot st store now snap).2 = store := by
  have hnpstep : (snapshotStep st now snap).2 = [] := by
    rcases hnp with rfl | ⟨c, rfl⟩ | ⟨ip, rfl⟩ | ⟨it, rfl⟩
    · simp [snapshotStep, handleNonPlaying, hidle]
    · simp [snapshotStep]
    · simp [snapshotStep, handleNonPlaying, hidle]
    · cases it <;> simp [snapshotStep, handleNonPlaying, hidle]
  refine ⟨hnpstep, ?_⟩
  simp [processSnapshot, applyOps, hnpstep]

/-- Witness for `nonplaying_while_idle_no_writes`: an idle tracker fed a 204
against a one-row store. -/
theorem nonplaying_while_idle_no_writes_witness :
    (snapshotStep ⟨some "A", none, 180⟩ 9 .noContent).2 = [] ∧
    (processSnapshot ⟨some "A", none, 180⟩
        [⟨0, some "A", "Song", "Artist", none, none, some 1, some 2⟩] 9 .noContent).2
      = [⟨0, some "A", "Song", "Artist", none, none, some 1, some 2⟩] :=
  nonplaying_while_idle_no_writes ⟨some "A", none, 180⟩
    [⟨0, some "A", "Song", "Artist", none, none, some 1, some 2⟩] 9 .noContent rfl
    (Or.inl rfl)

/-- Claim C8: no failure injected into any poll cycle — refresh failure,
transport error on the fetch, JSON parse error, store write failure —
terminates the loop: every scripted tick completes. -/
theorem poll_loop_survives_all_cycle_failures (s : SysState) (envs : List CycleEnv) :
    (runLoop s envs).2 = envs.length := by
  induction envs generalizing s with
  | nil => rfl
  | cons e es ih =>
      unfold runLoop
      cases h : cycleBody s e with
      | mk s' exn =>
          cases exn with
          | none => simp [ih]
          | some e' => simp [caughtByLoopHandler, ih]

theorem dashboard_fold_eq_sum (parse : String → Option Int) (rows : List RawTimes)
    (acc : Int) :
    rows.foldl
        (fun a row => match rowSeconds parse row with | none => a | some v => a + v) acc
      = acc + (rows.filterMap (rowSeconds parse)).sum := by
  induction rows generalizing acc with
  | nil => simp
  | cons r rs ih =>
      simp only [List.foldl_cons, List.filterMap_cons]
      cases h : rowSeconds parse r with
      | none => simp only [h]; rw [ih]
      | some v =>
          simp only [h]
          rw [ih, List.sum_cons]
          ring

/-- Claim C7: the dashboard's total elapsed minutes equal the floor of the
sum of per-closed-session elapsed seconds divided by 60, and a row whose
stored timestamps are malformed or unparseable contributes nothing without
aborting the aggregation — removing it from anywhere in the row list leaves
the total unchanged. -/
theorem dashboard_minutes_eq_floor_sum (parse : String → Option Int)
    (rows pre post : List RawTimes) (bad : RawTimes)
    (hbad : rowSeconds parse bad = none) :
    dashboard_total_minutes parse rows = specTotalMinutes parse rows ∧
    dashboard_total_minutes parse (pre ++ bad :: post)
      = dashboard_total_minutes parse (pre ++ post) := by
  have key : ∀ l : List RawTimes,
      dashboard_total_minutes parse l = specTotalMinutes parse l := by
    intro l
    unfold dashboard_total_minutes specTotalMinutes dashboard_total_seconds
    rw [dashboard_fold_eq_sum]
    simp
  refine ⟨key rows, ?_⟩
  rw [key, key]
  unfold specTotalMinutes
  simp [List.filterMap_append, hbad]

/-- Witness for `dashboard_minutes_eq_floor_sum`: one closed session under a
concrete parse function, plus a row whose start cell fails to parse;
dropping the malformed row changes nothing. -/
theorem dashboard_minutes_eq_floor_sum_witness :
    dashboard_total_minutes (fun s => if s = "x" then none else some (String.length s * 1000000))
        [⟨some "ab", some "ababababababababababababababababababababababab"⟩]
      = specTotalMinutes (fun s => if s = "x" then none else some (String.length s * 1000000))
        [⟨some "ab", some "ababababababababababababababababababababababab"⟩] ∧
    dashboard_total_minutes (fun s => if s = "x" then none else some (String.length s * 1000000))
        ([⟨some "ab", some "ababababababababababababababababababababababab"⟩] ++
          ⟨some "x", some "ab"⟩ :: [])
      = dashboard_total_minutes (fun s => if s = "x" then none else some (String.length s * 1000000))
        ([⟨some "ab", some "ababababababababababababababababababababababab"⟩] ++ []) :=
  dashboard_minutes_eq_floor_sum _ _ _ [] ⟨some "x", some "ab"⟩ (by simp [rowSeconds])

/-- Claim C10: an authenticated `/current-track` request with an open
in-memory session whose track id has no row in the Session Store answers 200
with the bare message "Track info not found". -/
theorem current_track_info_not_found (access : Option String) (st : TrackerState)
    (store : List Row) (now : Nat)
    (ha : strTruthy access = true) (hid : strTruthy st.current_track_id = true)
    (hst : st.current_start_time.isSome = true)
    (hrow : ∀ r ∈ store, sqlEq r.track_id st.current_track_id = false) :
    current_track access st store now = CTResp.notFound ∧
    (current_track access st store now).status = 200 ∧
    (current_track access st store now).message = some "Track info not found" := by
  have hfilter : store.filter (fun r => sqlEq r.track_id st.current_track_id) = [] :=
    List.filter_eq_nil_iff.mpr (fun r hr => by simp [hrow r hr])
  have hq : queryLatest store st.current_track_id = none := by
    unfold queryLatest
    rw [hfilter]
    rfl
  have hmain : current_track access st store now = CTResp.notFound := by
    unfold current_track
    simp [ha, hid, hst, hq]
  exact ⟨hmain, by rw [hmain]; rfl, by rw [hmain]; rfl⟩

/-- Witness for `current_track_info_not_found`: authenticated, open session
for track "A", store empty. -/
theorem current_track_info_not_found_witness :
    current_track (some "tok") ⟨some "A", some 5, 180⟩ [] 9 = CTResp.notFound ∧
    (current_track (some "tok") ⟨some "A", some 5, 180⟩ [] 9).status = 200 ∧
    (current_track (some "tok") ⟨some "A", some 5, 180⟩ [] 9).message
      = some "Track info not found" :=
  current_track_info_not_found (some "tok") ⟨some "A", some 5, 180⟩ [] 9
    (by decide) (by decide) rfl (by simp)

/-- Claim C4, counterexample: after `Playing(A)` then `NoContent` the tracker
does NOT return to an "open track absent" state — `current_track_id` still
holds "A"; only the open start time is cleared. -/
theorem nocontent_retains_current_track_id :
    (runSnaps initState [] [(1, .payload (some itemA) true), (2, .noContent)]).1.current_track_id
      = some "A" := by
  decide

/-- Claim C4 as amended: after `Playing(A, is_playing=true)` then `NoContent`,
the open session for A gets its `end_time` set at the NoContent instant, the
tracker clears its open start time (while retaining the track id in memory),
and a subsequent `/current-track` query reports that no track is currently
playing. -/
theorem playing_then_nocontent_closes_session (it : Item) (tid : String) (t1 t2 : Nat)
    (hid : it.id = some tid) :
    (runSnaps initState [] [(t1, .payload (some it) true), (t2, .noContent)]).2
      = [⟨0, some tid, it.name.getD "Unknown", joinArtists it.artists, it.album_name,
          headImage it.album_images, some t1, some t2⟩] ∧
    (runSnaps initState []
        [(t1, .payload (some it) true), (t2, .noContent)]).1.current_start_time = none ∧
    ∀ (access : Option String) (now : Nat), strTruthy access = true →
      current_track access
          (runSnaps initState [] [(t1, .payload (some it) true), (t2, .noContent)]).1
          (runSnaps initState [] [(t1, .payload (some it) true), (t2, .noContent)]).2 now
        = CTResp.noTrack := by
  have hrun : runSnaps initState [] [(t1, .payload (some it) true), (t2, .noContent)]
      = (⟨some tid, none, 180⟩,
         [⟨0, some tid, it.name.getD "Unknown", joinArtists it.artists, it.album_name,
           headImage it.album_images, some t1, some t2⟩]) := by
    simp only [runSnaps, processSnapshot, snapshotStep, handlePlaying, handleNonPlaying,
      applyOps, applyOp, updateDuration, initState, sqlCloseOpen, sqlEq, hid]
    simp [applyOp, sqlCloseOpen, sqlEq]
  refine ⟨by rw [hrun], by rw [hrun], ?_⟩
  intro access now ha
  rw [hrun]
  simp [current_track, ha]

/-- Witness for `playing_then_nocontent_closes_session` at the concrete
item for track "A" and instants 1, 2. -/
theorem playing_then_nocontent_closes_session_witness :
    (runSnaps initState [] [(1, .payload (some itemA) true), (2, .noContent)]).2
      = [⟨0, some "A", itemA.name.getD "Unknown", joinArtists itemA.artists, itemA.album_name,
          headImage itemA.album_images, some 1, some 2⟩] ∧
    (runSnaps initState []
        [(1, .payload (some itemA) true), (2, .noContent)]).1.current_start_time = none ∧
    ∀ (access : Option String) (now : Nat), strTruthy access = true →
      current_track access
          (runSnaps initState [] [(1, .payload (some itemA) true), (2, .noContent)]).1
          (runSnaps initState [] [(1, .payload (some itemA) true), (2, .noContent)]).2 now
        = CTResp.noTrack :=
  playing_then_nocontent_closes_session itemA "A" 1 2 rfl

/-- Claim C1, counterexample: for `Playing(A)`, `NoContent`,
`Playing(A)` the store ends with a single row for A — closed at the
NoContent instant — not the two session rows the claim requires; the
resumption inserts nothing. -/
theorem same_track_resume_yields_one_row :
    (runSnaps initState []
        [(1, .payload (some itemA) true), (2, .noContent),
         (3, .payload (some itemA) true)]).2
      = [⟨0, some "A", "Song A", "Artist", some "Album", some "img", some 1, some 2⟩] := by
  decide

/-- Claim C1 as amended: when the tracker is Open(T), observes NoContent or a
Playing snapshot that is missing its item or has `is_playing=false`, and then
observes `Playing(is_playing=true, track=T)` again, the store ends up with a
single session row for T, closed at the time of the non-playing snapshot; the
resumption only resets the in-memory start time (an `Error` snapshot would
not even close the row). -/
theorem same_track_resume_single_session (it : Item) (tid : String) (t1 t2 t3 : Nat)
    (snap : Snapshot) (hid : it.id = some tid) (hsnap : ClosingSnap snap) :
    (runSnaps initState []
        [(t1, .payload (some it) true), (t2, snap), (t3, .payload (some it) true)]).2
      = [⟨0, some tid, it.name.getD "Unknown", joinArtists it.artists, it.album_name,
          headImage it.album_images, some t1, some t2⟩] ∧
    (runSnaps initState []
        [(t1, .payload (some it) true), (t2, snap),
         (t3, .payload (some it) true)]).1.current_track_id = some tid ∧
    (runSnaps initState []
        [(t1, .payload (some it) true), (t2, snap),
         (t3, .payload (some it) true)]).1.current_start_time = some t3 := by
  have hstep2 : ∀ st : TrackerState, snapshotStep st t2 snap = handleNonPlaying st t2 := by
    intro st
    rcases hsnap with rfl | ⟨ip, rfl⟩ | ⟨oit, rfl⟩
    · rfl
    · rfl
    · cases oit <;> rfl
  simp only [runSnaps, processSnapshot, hstep2]
  simp only [snapshotStep, handlePlaying, handleNonPlaying, applyOps, applyOp,
    updateDuration, initState, sqlCloseOpen, sqlEq, hid]
  simp [applyOp, sqlCloseOpen, sqlEq]

/-- Witness for `same_track_resume_single_session` at the concrete track "A"
item, a `Playing(is_playing=false)` gap snapshot, and instants 1, 2, 3. -/
theorem same_track_resume_single_session_witness :
    (runSnaps initState []
        [(1, .payload (some itemA) true), (2, .payload (some itemA) false),
         (3, .payload (some itemA) true)]).2
      = [⟨0, some "A", itemA.name.getD "Unknown", joinArtists itemA.artists, itemA.album_name,
          headImage itemA.album_images, some 1, some 2⟩] ∧
    (runSnaps initState []
        [(1, .payload (some itemA) true), (2, .payload (some itemA) false),
         (3, .payload (some itemA) true)]).1.current_track_id = some "A" ∧
    (runSnaps initState []
        [(1, .payload (some itemA) true), (2, .payload (some itemA) false),
         (3, .payload (some itemA) true)]).1.current_start_time = some 3 :=
  same_track_resume_single_session itemA "A" 1 2 3 (.payload (some itemA) false) rfl
    (Or.inr (Or.inr ⟨some itemA, rfl⟩))

theorem open_rows_match_current (st : TrackerState) (store : List Row)
    (hopen : ∀ r ∈ store, r.end_time = none →
      r.track_id = st.current_track_id ∧ r.track_id.isSome) :
    ∀ r ∈ store, r.end_time = none → sqlEq r.track_id st.current_track_id = true := by
  intro r hr he
  obtain ⟨htid, hsome⟩ := hopen r hr he
  rw [htid] at hsome ⊢
  cases hc : st.current_track_id with
  | none => rw [hc] at hsome; simp at hsome
  | some c => simp [sqlEq]

theorem inv_handleNonPlaying (st : TrackerState) (store : List Row) (now : Nat)
    (hinv : TrackerInv st store) :
    TrackerInv (handleNonPlaying st now).1 (applyOps store (handleNonPlaying st now).2) := by
  obtain ⟨hopen, hcount⟩ := hinv
  unfold handleNonPlaying
  by_cases hst : st.current_start_time.isSome
  · simp only [hst, if_true]
    have hclosed : ∀ r ∈ sqlCloseOpen store st.current_track_id now, r.end_time ≠ none :=
      sqlCloseOpen_all_closed store st.current_track_id now
        (open_rows_match_current st store hopen)
    exact ⟨fun r hr he => absurd he (hclosed r hr),
      le_of_eq_of_le (openCount_eq_zero_of_closed _ hclosed) (Nat.zero_le 1)⟩
  · simp only [hst, if_false]
    exact ⟨hopen, hcount⟩

theorem applyOps_append (store : List Row) (l1 l2 : List StoreOp) :
    applyOps store (l1 ++ l2) = applyOps (applyOps store l1) l2 := by
  simp [applyOps, List.foldl_append]

theorem mem_applyOp_insert {r : Row} (store : List Row) (tid : Option String)
    (nm a : String) (an ai : Option String) (s : Nat) :
    r ∈ applyOp store (.insert tid nm a an ai s) ↔
      r ∈ store ∨ r = ⟨store.length, tid, nm, a, an, ai, some s, none⟩ := by
  simp [applyOp]

theorem openCount_applyOp_insert (store : List Row) (tid : Option String)
    (nm a : String) (an ai : Option String) (s : Nat) :
    openCount (applyOp store (.insert tid nm a an ai s)) = openCount store + 1 := by
  simp [applyOp, openCount, List.filter_append]

theorem inv_handlePlaying (st : TrackerState) (store : List Row) (now : Nat) (it : Item)
    (hid : it.id.isSome) (hinv : TrackerInv st store) :
    TrackerInv (handlePlaying st now it).1 (applyOps store (handlePlaying st now it).2) := by
  obtain ⟨hopen, hcount⟩ := hinv
  unfold handlePlaying
  by_cases hch : it.id = st.current_track_id
  · simp only [hch, ne_eq, not_true_eq_false, if_false]
    by_cases hst : st.current_start_time = none
    · simp only [hst, if_true]
      exact ⟨hopen, hcount⟩
    · simp only [hst, if_false]
      exact ⟨hopen, hcount⟩
  · simp only [ne_eq, hch, not_false_eq_true, if_true]
    rw [applyOps_append]
    have hclosed1 : ∀ r ∈ applyOps store (if st.current_track_id ≠ none
        then [StoreOp.close st.current_track_id now] else []), r.end_time ≠ none := by
      by_cases hc : st.current_track_id = none
      · simp only [hc, ne_eq, not_true_eq_false, if_false]
        intro r hr he
        obtain ⟨htid, hsome⟩ := hopen r hr he
        rw [hc] at htid
        rw [htid] at hsome
        simp at hsome
      · simp only [ne_eq, hc, not_false_eq_true, if_true]
        exact sqlCloseOpen_all_closed store st.current_track_id now
          (open_rows_match_current st store hopen)
    set store1 := applyOps store (if st.current_track_id ≠ none
        then [StoreOp.close st.current_track_id now] else []) with hs1
    refine ⟨?_, ?_⟩
    · intro r hr he
      rcases (mem_applyOp_insert store1 it.id (it.name.getD "Unknown") (joinArtists it.artists)
          it.album_name (headImage it.album_images) now).mp hr with hr1 | rfl
      · exact absurd he (hclosed1 r hr1)
      · exact ⟨rfl, hid⟩
    · have hone : openCount (applyOp store1 (.insert it.id (it.name.getD "Unknown")
          (joinArtists it.artists) it.album_name (headImage it.album_images) now))
          = openCount store1 + 1 :=
        openCount_applyOp_insert store1 it.id (it.name.getD "Unknown")
          (joinArtists it.artists) it.album_name (headImage it.album_images) now
      have hzero : openCount store1 = 0 := openCount_eq_zero_of_closed store1 hclosed1
      calc openCount (applyOps store1 [.insert it.id (it.name.getD "Unknown")
              (joinArtists it.artists) it.album_name (headImage it.album_images) now])
          = openCount store1 + 1 := hone
        _ ≤ 1 := by omega

theorem inv_processSnapshot (st : TrackerState) (store : List Row) (now : Nat)
    (snap : Snapshot) (hwf : WFSnap snap) (hinv : TrackerInv st store) :
    TrackerInv (processSnapshot st store now snap).1 (processSnapshot st store now snap).2 := by
  cases snap with
  | noContent => exact inv_handleNonPlaying st store now hinv
  | httpError c => exact hinv
  | payload item ip =>
      cases item with
      | none => exact inv_handleNonPlaying st store now hinv
      | some it =>
          cases ip with
          | true => exact inv_handlePlaying st store now it (hwf it true rfl) hinv
          | false => exact inv_handleNonPlaying st store now hinv

theorem inv_runSnaps (snaps : List (Nat × Snapshot)) (st : TrackerState) (store : List Row)
    (hwf : ∀ p ∈ snaps, WFSnap p.2) (hinv : TrackerInv st store) :
    TrackerInv (runSnaps st store snaps).1 (runSnaps st store snaps).2 := by
  induction snaps generalizing st store with
  | nil => exact hinv
  | cons p rest ih =>
      obtain ⟨now, snap⟩ := p
      exact ih (processSnapshot st store now snap).1 (processSnapshot st store now snap).2
        (fun q hq => hwf q (List.mem_cons_of_mem _ hq))
        (inv_processSnapshot st store now snap (hwf (now, snap) (List.mem_cons_self _ _)) hinv)

/-- Claim C3: after processing any sequence of snapshots from an empty store,
at most one session row per track id has an absent `end_time`. -/
theorem at_most_one_open_session_per_track (snaps : List (Nat × Snapshot))
    (hwf : ∀ p ∈ snaps, WFSnap p.2) (tid : Option String) :
    ((runSnaps initState [] snaps).2.filter
        (fun r => r.end_time = none ∧ r.track_id = tid)).length ≤ 1 := by
  have hinv := inv_runSnaps snaps initState []
    hwf ⟨fun r hr => absurd hr (List.not_mem_nil r), by simp [openCount]⟩
  have hsub : ((runSnaps initState [] snaps).2.filter
        (fun r => r.end_time = none ∧ r.track_id = tid)).length
      ≤ openCount (runSnaps initState [] snaps).2 := by
    unfold openCount
    refine List.Sublist.length_le (List.monotone_filter_right _ ?_)
    intro r hr
    simp only [decide_eq_true_eq] at hr ⊢
    exact hr.1
  exact hsub.trans hinv.2

/-- Witness for `at_most_one_open_session_per_track`: the track-change-free
sequence `Playing(A)`, `Playing(A)`, `NoContent` ends with no open row for
track "A". -/
theorem at_most_one_open_session_per_track_witness :
    ((runSnaps initState []
        [(1, .payload (some itemA) true), (2, .payload (some itemA) true),
         (3, .noContent)]).2.filter
        (fun r => r.end_time = none ∧ r.track_id = some "A")).length ≤ 1 :=
  at_most_one_open_session_per_track _ (by
    intro p hp
    simp only [List.mem_cons, List.not_mem_nil, or_false] at hp
    rcases hp with rfl | rfl | rfl
    · intro it ip h
      injection h with h1 h2
      injection h1 with h3
      rw [← h3]
      rfl
    · intro it ip h
      injection h with h1 h2
      injection h1 with h3
      rw [← h3]
      rfl
    · intro it ip h
      exact absurd h (by simp)) (some "A")

end SpotifyTracker
